import Mathlib

/-!
Shallow embedding of the SniperBot two-stage scanning pipeline:
universe acquisition (`get_all_tickers` in run_scanner.py), batched fast
filter and signal emission (`run_scanner` / `save_signal` in
run_scanner.py), and the deep scoring engine
(`SniperScorer.analyze_stock` / `SniperScorer._analyze_sentiment` in
scanner_logic.py).

Modelling conventions:
 - Python floats are modelled as `ℚ` (exact rationals); pandas NaN cells in
   the fast-filter download are modelled as `Option ℚ` with `none` for NaN.
 - Network calls that can raise are modelled as `Except String _` values
   carried by a `Provider` / `UniverseSources` record; a `.error` value is
   the behaviour "this call raised an exception with this message".
 - Python `f"{x:.2f}"` is rendered by `fmt2`; `str(x)` on a number by
   `toString`.  The reason strings reproduce the source's text.
-/

/-- One daily OHLCV bar of the deep-scorer history (`stock.history`).
The open price is carried for completeness; `analyze_stock` never reads it. -/
structure Bar where
  open_ : ℚ
  high : ℚ
  low : ℚ
  close : ℚ
  volume : ℚ
deriving DecidableEq

/-- Result dictionary returned by `SniperScorer.analyze_stock`. -/
structure ScoreResult where
  ticker : String
  final_score : Int
  details : String
deriving DecidableEq

/-- Reference data read from `stock.info` (targetMeanPrice, recommendationKey). -/
structure AnalystInfo where
  targetMeanPrice : Option ℚ
  recommendationKey : String
deriving DecidableEq

/-- The market-data provider's observable behaviour for one ticker: the
one-year history fetch, the news lookup and the reference-data lookup,
each of which may raise (modelled by `Except.error msg`). -/
structure Provider where
  hist : Except String (List Bar)
  news : Except String (List String)
  info : Except String AnalystInfo

/-- Renders a rational the way Python renders `f"{x:.2f}"`: sign, integer
part, dot, two fractional digits (rounded to the nearest cent). -/
def fmt2 (q : ℚ) : String :=
  let cents : Int := round (q * 100)
  let sign := if cents < 0 then "-" else ""
  let a := cents.natAbs
  let frac := a % 100
  sign ++ toString (a / 100) ++ "." ++ (if frac < 10 then "0" ++ toString frac else toString frac)

/-- Last `n` elements of a list (`iloc[-n:]`). -/
def lastN (n : Nat) (l : List ℚ) : List ℚ := l.drop (l.length - n)

/-- Mean of the last `n` closes: `rolling(window=n).mean().iloc[-1]`. -/
def smaLast (n : Nat) (closes : List ℚ) : ℚ := (lastN n closes).sum / (n : ℚ)

/-- Close of the last bar: `hist['Close'].iloc[-1]`. -/
def lastClose (hist : List Bar) : ℚ := (hist.map Bar.close).getLastD 0

/-- Volume of the last bar: `hist['Volume'].iloc[-1]`. -/
def todayVol (hist : List Bar) : ℚ := (hist.map Bar.volume).getLastD 0

/-- Factor 1, scanner_logic.py lines 31-43: the moving-average stack.
Returns (score delta, reason entry). -/
def maFactor (hist : List Bar) : Int × String :=
  if hist.length ≥ 200 then
    let closes := hist.map Bar.close
    let sma20 := smaLast 20 closes
    let sma50 := smaLast 50 closes
    let sma200 := smaLast 200 closes
    if sma20 > sma50 ∧ sma50 > sma200 then
      (30, "MA Stack (20>50>200): +30")
    else
      (0, "No MA Stack (20=" ++ fmt2 sma20 ++ ", 50=" ++ fmt2 sma50 ++ ", 200=" ++ fmt2 sma200 ++ ")")
  else
    (0, "Not enough data for MA Stack")

/-- The 14 volumes preceding the current session: `hist['Volume'].iloc[-15:-1]`
(the code only evaluates this when at least 15 bars exist). -/
def rvolWindow (hist : List Bar) : List ℚ :=
  (((hist.map Bar.volume).drop (hist.length - 15)).take 14)

/-- Mean of the 14-session volume window (pandas `Series.mean` = sum/count). -/
def rvolAvg (hist : List Bar) : ℚ := (rvolWindow hist).sum / ((rvolWindow hist).length : ℚ)

/-- Factor 2, scanner_logic.py lines 45-64: relative volume. -/
def rvolFactor (hist : List Bar) : Int × String :=
  if hist.length ≥ 15 then
    let avg_vol_14 := rvolAvg hist
    if avg_vol_14 > 0 then
      let rvol := todayVol hist / avg_vol_14
      if rvol > 3/2 then
        (20, "RVOL " ++ fmt2 rvol ++ " > 1.5: +20")
      else
        (0, "RVOL " ++ fmt2 rvol ++ " <= 1.5")
    else
      (0, "Avg Vol is 0")
  else
    (0, "Not enough data for RVOL")

/-- Maximum high over the whole history: `hist['High'].max()`. -/
def maxHigh : List Bar → ℚ
  | [] => 0
  | b :: bs => (bs.map Bar.high).foldl max b.high

/-- Factor 3, scanner_logic.py lines 66-72: proximity to the 52-week high. -/
def highFactor (current_price : ℚ) (hist : List Bar) : Int × String :=
  let high_52w := maxHigh hist
  if current_price ≥ high_52w * (95/100) then
    (20, "Price within 5% of 52w High (" ++ fmt2 high_52w ++ "): +20")
  else
    (0, "Price not near 52w High (" ++ fmt2 high_52w ++ ")")

/-- True range of a session given the previous session's close:
max of high-low, |high - prev close|, |low - prev close|. -/
def trueRange (prev cur : Bar) : ℚ :=
  max (cur.high - cur.low) (max |cur.high - prev.close| |cur.low - prev.close|)

/-- The true-range series for every session that has a predecessor. -/
def trList (hist : List Bar) : List ℚ :=
  (hist.zip hist.tail).map fun pc => trueRange pc.1 pc.2

/-- ATR(14): mean of the last 14 true ranges (`rolling(14).mean().iloc[-1]`;
with ≥ 15 bars every session in the window has a predecessor). -/
def atr14 (hist : List Bar) : ℚ :=
  ((trList hist).drop ((trList hist).length - 14)).sum / 14

/-- Factor 4, scanner_logic.py lines 74-92: ATR stability. -/
def atrFactor (current_price : ℚ) (hist : List Bar) : Int × String :=
  if hist.length ≥ 15 then
    let atr := atr14 hist
    let atr_threshold := current_price * (5/100)
    if atr < atr_threshold then
      (10, "ATR (" ++ fmt2 atr ++ ") < 5% Price (" ++ fmt2 atr_threshold ++ "): +10")
    else
      (0, "ATR (" ++ fmt2 atr ++ ") >= 5% Price")
  else
    (0, "Not enough data for ATR")

/-- Positive sentiment keyword set (scanner_logic.py line 144). -/
def positive_keywords : List String :=
  ["upgrade", "buy", "surge", "jump", "growth", "beat", "record", "bull"]

/-- Negative sentiment keyword set (scanner_logic.py line 145). -/
def negative_keywords : List String :=
  ["downgrade", "sell", "drop", "miss", "loss", "lawsuit", "crash"]

/-- Python's `str.lower()`: lower-case every character. -/
def strLower (s : String) : String := String.mk (s.data.map Char.toLower)

/-- Substring test on character lists, Python's `needle in haystack`. -/
def charsIn (needle : List Char) : List Char → Bool
  | [] => needle.isEmpty
  | c :: rest => needle.isPrefixOf (c :: rest) || charsIn needle rest

/-- Python's `keyword in title` substring containment on strings. -/
def strIn (needle hay : String) : Bool := charsIn needle.data hay.data

/-- Sentiment contribution of one headline (scanner_logic.py lines 155-168):
the first matching positive keyword adds 10 (then the loop breaks), the
first matching negative keyword subtracts 20. -/
def headlineScore (title : String) : Int :=
  let t := strLower title
  (match positive_keywords.find? (fun k => strIn k t) with
   | some _ => 10
   | none => 0) +
  (match negative_keywords.find? (fun k => strIn k t) with
   | some _ => -20
   | none => 0)

/-- `SniperScorer._analyze_sentiment`: 0 on fetch failure or no news,
otherwise the summed keyword score of the first 3 news titles. -/
def analyze_sentiment (newsRes : Except String (List String)) : Int :=
  match newsRes with
  | .error _ => 0
  | .ok news => if news.isEmpty then 0 else ((news.take 3).map headlineScore).sum

/-- The single sentiment reason entry appended by `analyze_stock`
(scanner_logic.py lines 97-102). -/
def sentimentEntry (s : Int) : String :=
  if s > 0 then "Positive News Sentiment: +" ++ toString s
  else if s < 0 then "Negative News Sentiment: " ++ toString s
  else "Neutral/No News Sentiment"

/-- Factor 6, scanner_logic.py lines 104-128: analyst data. Returns the
score delta and the 0-2 reason entries the block appends (one entry,
"No Analyst Data", when the whole lookup raises). -/
def analystFactor (current_price : ℚ) (infoRes : Except String AnalystInfo) : Int × List String :=
  match infoRes with
  | .error _ => (0, ["No Analyst Data"])
  | .ok info =>
    let recommendation := strLower info.recommendationKey
    let targetPart : Int × List String :=
      match info.targetMeanPrice with
      | some target_price =>
        if target_price > current_price * (120/100) then
          (10, ["Analyst Upside > 20% (Target $" ++ toString target_price ++ "): +10"])
        else if current_price > target_price then
          (-10, ["Price > Analyst Target ($" ++ toString target_price ++ "): -10"])
        else (0, [])
      | none => (0, [])
    let recPart : Int × List String :=
      if recommendation = "buy" ∨ recommendation = "strong_buy" then
        (5, ["Analyst Rating \x27" ++ recommendation ++ "\x27: +5"])
      else (0, [])
    (targetPart.1 + recPart.1, targetPart.2 ++ recPart.2)

/-- `SniperScorer.analyze_stock`, scanner_logic.py lines 8-137: the deep
scorer.  A total function: every provider behaviour yields a result. -/
def analyze_stock (ticker : String) (p : Provider) : ScoreResult :=
  match p.hist with
  | .error e => ⟨ticker, 0, "Error: " ++ e⟩
  | .ok hist =>
    if hist.isEmpty then ⟨ticker, 0, "No data found"⟩
    else
      let current_price := lastClose hist
      if current_price < 2 then
        ⟨ticker, 0, "Price $" ++ fmt2 current_price ++ " < $2 (Hard Filter)"⟩
      else
        let ma := maFactor hist
        let rv := rvolFactor hist
        let hi := highFactor current_price hist
        let st := atrFactor current_price hist
        let sentiment_score := analyze_sentiment p.news
        let an := analystFactor current_price p.info
        ⟨ticker, ma.1 + rv.1 + hi.1 + st.1 + sentiment_score + an.1,
          String.intercalate "; "
            ([ma.2, rv.2, hi.2, st.2, sentimentEntry sentiment_score] ++ an.2)⟩

/-! Universe Resolver (`get_all_tickers`, run_scanner.py lines 20-72). -/

/-- Python `str.isalpha()`: nonempty and every character alphabetic. -/
def pyIsAlpha (s : String) : Bool := !s.isEmpty && s.data.all Char.isAlpha

/-- Python `c in s` membership of one character in a string. -/
def hasChar (s : String) (c : Char) : Bool := s.data.contains c

/-- Cleaning applied to the primary (NASDAQ) symbol list, run_scanner.py
lines 43-46: drop symbols containing a dot or dash, then keep `isalpha`. -/
def cleanPrimary (raw : List String) : List String :=
  (raw.filter fun t => !hasChar t '.' && !hasChar t '-').filter pyIsAlpha

/-- Python `t.replace('.', '-')` for the one-character pattern. -/
def replaceDotWithDash (t : String) : String :=
  String.mk (t.data.map fun c => if c = '.' then '-' else c)

/-- Cleaning applied to the fallback (S&P 500) symbol list, run_scanner.py
lines 62-67: replace dots with dashes, then drop symbols containing a dot
or dash.  Note: no `isalpha` filter on this path. -/
def cleanFallback (raw : List String) : List String :=
  (raw.map replaceDotWithDash).filter fun t => !hasChar t '.' && !hasChar t '-'

/-- Observable behaviour of the two universe sources: the primary fetch
yields `error` on a fetch/parse exception, otherwise the parsed
`data['data']` payload (`none` when that field is falsy, `some rows`
otherwise); the fallback fetch yields `error` or its symbol rows. -/
structure UniverseSources where
  primary : Except String (Option (List String))
  fallback : Except String (List String)

/-- The Method-2 path of `get_all_tickers`: S&P 500 cleaning, or an empty
universe when the fallback fetch raises too. -/
def fallbackTickers (fb : Except String (List String)) : List String :=
  match fb with
  | .error _ => []
  | .ok rows => cleanFallback rows

/-- `get_all_tickers`, run_scanner.py lines 20-72: return the cleaned
primary list when the primary response parses with a non-empty rows
payload (even if cleaning empties it); otherwise run the fallback path. -/
def get_all_tickers (src : UniverseSources) : List String :=
  match src.primary with
  | .ok (some rows) =>
    if !rows.isEmpty then cleanPrimary rows else fallbackTickers src.fallback
  | _ => fallbackTickers src.fallback

/-! Batch Fast-Filter and Signal Emitter (`run_scanner`, run_scanner.py). -/

/-- One bar of the 5-day bulk download; `none` models a NaN cell. -/
structure FastBar where
  close : Option ℚ
  volume : Option ℚ
deriving DecidableEq

/-- Fast-filter threshold `MIN_PRICE` (run_scanner.py line 17). -/
def MIN_PRICE : ℚ := 2

/-- Fast-filter threshold `MIN_DOLLAR_VOLUME` (run_scanner.py line 18). -/
def MIN_DOLLAR_VOLUME : ℚ := 5000000

/-- Signal threshold `SCORE_THRESHOLD` (run_scanner.py line 16). -/
def SCORE_THRESHOLD : Int := 75

/-- Fast-filter decision for one ticker, run_scanner.py lines 135-158:
skip when the ticker has no column / empty frame / NaN close or volume,
else accept iff close ≥ MIN_PRICE and close·volume ≥ MIN_DOLLAR_VOLUME,
recording the last close. -/
def fastFilterOne (data : String → Option (List FastBar)) (t : String) :
    Option (String × ℚ) :=
  match data t with
  | none => none
  | some df =>
    match df.getLast? with
    | none => none
    | some last_row =>
      match last_row.close, last_row.volume with
      | some close, some volume =>
        if close ≥ MIN_PRICE ∧ close * volume ≥ MIN_DOLLAR_VOLUME then
          some (t, close)
        else none
      | some _, none => none
      | none, _ => none

/-- The fast-filter stage over a batch: the survivor list with each
survivor's last close (run_scanner.py lines 123-155). -/
def fastFilter (batch : List String) (data : String → Option (List FastBar)) :
    List (String × ℚ) :=
  batch.filterMap (fastFilterOne data)

/-- A persisted signal row as built by `save_signal`, run_scanner.py 74-88. -/
structure Signal where
  ticker : String
  entry_price : ℚ
  confidence_score : Int
  reasons : String
  status : String
deriving DecidableEq

/-- `save_signal`'s row construction: status is hard-coded OPEN. -/
def save_signal (ticker : String) (entry_price : ℚ) (score : Int) (reasons : String) : Signal :=
  ⟨ticker, entry_price, score, reasons, "OPEN"⟩

/-- The deep-analysis / signal-emission loop over the survivors,
run_scanner.py lines 169-194: score each survivor and forward a signal
iff the score strictly exceeds SCORE_THRESHOLD, with the fast-filter
close as entry price. -/
def emit_signals (survivors : List (String × ℚ)) (scorer : String → ScoreResult) :
    List Signal :=
  survivors.filterMap fun tc =>
    let result := scorer tc.1
    if result.final_score > SCORE_THRESHOLD then
      some (save_signal tc.1 tc.2 result.final_score result.details)
    else none

/-! Shared helper lemmas. -/

/-- Bridge from the Boolean character-membership test to `∈`. -/
theorem hasChar_iff_mem {s : String} {c : Char} : hasChar s c = true ↔ c ∈ s.data := by
  unfold hasChar
  exact List.elem_iff

/-- Mapping dot-to-dash over characters none of which is a dot is the identity. -/
theorem map_dot_eq_self {l : List Char} (h : ('.' : Char) ∉ l) :
    l.map (fun c => if c = '.' then '-' else c) = l := by
  induction l with
  | nil => rfl
  | cons a l ih =>
    simp only [List.mem_cons, not_or] at h
    have ha : a ≠ '.' := fun hh => h.1 hh.symm
    simp only [List.map_cons, if_neg ha]
    exact congrArg (a :: ·) (ih h.2)

/-- A string without a dot is unchanged by the dot-to-dash replacement. -/
theorem replaceDotWithDash_eq_self {t : String} (h : hasChar t '.' = false) :
    replaceDotWithDash t = t := by
  have hnd : ('.' : Char) ∉ t.data := by
    intro hmem
    exact absurd (hasChar_iff_mem.mpr hmem) (by simp [h])
  unfold replaceDotWithDash
  rw [map_dot_eq_self hnd]

/-- The two-decimal rendering of a natural number is its digits followed
by ".00". -/
theorem fmt2_natCast (n : ℕ) : fmt2 ((n : ℚ)) = toString n ++ ".00" := by
  have h : round ((n : ℚ) * 100) = ((n * 100 : ℕ) : ℤ) := by
    have : ((n : ℚ) * 100) = (((n * 100 : ℕ) : ℤ) : ℚ) := by push_cast; ring
    rw [this, round_intCast]
  simp only [fmt2, h]
  have h2 : ¬ (((n * 100 : ℕ) : ℤ) < 0) := by
    exact not_lt.mpr (Int.natCast_nonneg _)
  rw [if_neg h2]
  have h3 : ((n * 100 : ℕ) : ℤ).natAbs = n * 100 := Int.natAbs_ofNat _
  rw [h3]
  have h4 : n * 100 / 100 = n := Nat.mul_div_cancel n (by norm_num)
  have h5 : n * 100 % 100 = 0 := Nat.mul_mod_left n 100
  rw [h4, h5]
  rw [if_pos (by norm_num)]
  simp only [String.append_assoc]
  rfl

/-- C2: for every ticker whose fetched history is empty or whose most recent
close is strictly below 2.00, `analyze_stock` returns score 0 immediately
with only the hard-filter explanation — no factor contribution and no
per-factor reason entry. -/
theorem C2_hard_filter (t : String) (p : Provider) (hist : List Bar)
    (hh : p.hist = Except.ok hist) :
    (hist = [] → analyze_stock t p = ⟨t, 0, "No data found"⟩) ∧
    (hist ≠ [] → lastClose hist < 2 →
      analyze_stock t p = ⟨t, 0, "Price $" ++ fmt2 (lastClose hist) ++ " < $2 (Hard Filter)"⟩) := by
  obtain ⟨ph, pn, pi⟩ := p
  simp only at hh
  subst hh
  constructor
  · rintro rfl
    rfl
  · intro hne hlt
    simp [analyze_stock, hne, hlt]

/-- Witness for C2 at a concrete penny-stock history. -/
theorem C2_hard_filter_witness :
    analyze_stock "PENNY"
      ⟨Except.ok [⟨1, 1, 1, (1 : ℚ), 5⟩], Except.ok [], Except.ok ⟨none, ""⟩⟩ =
      ⟨"PENNY", 0, "Price $1.00 < $2 (Hard Filter)"⟩ := by
  have h := (C2_hard_filter "PENNY"
      ⟨Except.ok [⟨1, 1, 1, (1 : ℚ), 5⟩], Except.ok [], Except.ok ⟨none, ""⟩⟩
      [⟨1, 1, 1, (1 : ℚ), 5⟩] rfl).2 (by simp) (by norm_num [lastClose])
  rw [h]
  have h1 : lastClose [⟨1, 1, 1, (1 : ℚ), 5⟩] = ((1 : ℕ) : ℚ) := by
    simp [lastClose]
  rw [h1, fmt2_natCast]
  rfl

/-- C6: for every ticker and every provider behaviour, `analyze_stock` is a
total function (it never propagates an exception), and when the whole
analysis fails — the history fetch raises — it returns final score 0 with
the error message embedded as the sole reason entry. -/
theorem C6_never_throws (t : String) (p : Provider) (e : String)
    (hh : p.hist = Except.error e) :
    analyze_stock t p = ⟨t, 0, "Error: " ++ e⟩ := by
  obtain ⟨ph, pn, pi⟩ := p
  simp only at hh
  subst hh
  rfl

/-- Witness for C6 at a concrete raising provider. -/
theorem C6_never_throws_witness :
    analyze_stock "X" ⟨Except.error "boom", Except.ok [], Except.ok ⟨none, ""⟩⟩ =
      ⟨"X", 0, "Error: boom"⟩ :=
  C6_never_throws "X" ⟨Except.error "boom", Except.ok [], Except.ok ⟨none, ""⟩⟩ "boom" rfl

/-- A string containing a dot maps to one containing a dash. -/
theorem dash_mem_replace_of_dot {t : String} (h : hasChar t '.' = true) :
    hasChar (replaceDotWithDash t) '-' = true := by
  rw [hasChar_iff_mem] at h ⊢
  show ('-' : Char) ∈ t.data.map fun c => if c = '.' then '-' else c
  exact List.mem_map.mpr ⟨'.', h, by simp⟩

/-- C5 (amended): the fallback path runs when the primary fetch raises or
when its parsed payload carries no rows (missing or empty `data`/`rows`);
whenever the primary parses with a non-empty rows list the resolver
returns the cleaned primary result — even when cleaning filters it to
empty — never consulting the fallback. -/
theorem C5_fallback_trigger (p : Except String (Option (List String)))
    (f : Except String (List String)) (rows : List String) (e : String) :
    (p = Except.ok (some rows) → rows ≠ [] →
      get_all_tickers ⟨p, f⟩ = cleanPrimary rows) ∧
    (p = Except.error e → get_all_tickers ⟨p, f⟩ = fallbackTickers f) ∧
    (p = Except.ok none → get_all_tickers ⟨p, f⟩ = fallbackTickers f) ∧
    (p = Except.ok (some []) → get_all_tickers ⟨p, f⟩ = fallbackTickers f) := by
  refine ⟨?_, ?_, ?_, ?_⟩
  · rintro rfl hne
    simp [get_all_tickers, hne]
  · rintro rfl
    rfl
  · rintro rfl
    rfl
  · rintro rfl
    rfl

/-- Witness for C5 (amended) at a concrete one-symbol primary response. -/
theorem C5_fallback_trigger_witness :
    get_all_tickers ⟨Except.ok (some ["GOOG"]), Except.error "x"⟩ = cleanPrimary ["GOOG"] :=
  (C5_fallback_trigger (Except.ok (some ["GOOG"])) (Except.error "x") ["GOOG"] "e").1
    rfl (by simp)

/-- C5 counterexample: a primary response that parses without exception but
carries an empty rows payload makes the resolver consult the fallback —
the output is the fallback's list, and changes when the fallback changes. -/
theorem C5_counterexample :
    get_all_tickers ⟨Except.ok (some []), Except.ok ["AAPL"]⟩ = ["AAPL"] ∧
    get_all_tickers ⟨Except.ok (some []), Except.error "down"⟩ = [] ∧
    cleanPrimary [] = [] :=
  ⟨rfl, rfl, rfl⟩

/-- C4 (amended): the primary source's cleaned output contains a symbol iff
it came from the source, contains no dot and no dash, and satisfies
Python's `isalpha` (nonempty, all-alphabetic); the fallback source's
cleaned output contains a symbol iff it came from the source and contains
no dot and no dash — the alphabetic filter is not applied on that path.
The concrete input cleans to exactly GOOG under the primary source. -/
theorem C4_universe_cleaning (raw : List String) (s : String) :
    (s ∈ cleanPrimary raw ↔
      s ∈ raw ∧ hasChar s '.' = false ∧ hasChar s '-' = false ∧ pyIsAlpha s = true) ∧
    (s ∈ cleanFallback raw ↔
      s ∈ raw ∧ hasChar s '.' = false ∧ hasChar s '-' = false) ∧
    cleanPrimary ["BRK.B", "ABC-W", "GOOG", "AB3"] = ["GOOG"] := by
  refine ⟨?_, ⟨?_, ?_⟩, by decide⟩
  · simp only [cleanPrimary, List.mem_filter, Bool.and_eq_true, Bool.not_eq_true']
    tauto
  · intro hs
    simp only [cleanFallback, List.mem_filter, List.mem_map] at hs
    obtain ⟨⟨t, ht, hteq⟩, hcond⟩ := hs
    rw [Bool.and_eq_true, Bool.not_eq_true', Bool.not_eq_true'] at hcond
    obtain ⟨hdot, hdash⟩ := hcond
    have hx : replaceDotWithDash t = t := by
      apply replaceDotWithDash_eq_self
      cases hdt : hasChar t '.' with
      | false => rfl
      | true =>
        have := dash_mem_replace_of_dot hdt
        rw [hteq] at this
        rw [this] at hdash
        cases hdash
    rw [hx] at hteq
    subst hteq
    exact ⟨ht, hdot, hdash⟩
  · rintro ⟨hs, hdot, hdash⟩
    simp only [cleanFallback, List.mem_filter, List.mem_map]
    refine ⟨⟨s, hs, replaceDotWithDash_eq_self hdot⟩, ?_⟩
    rw [Bool.and_eq_true, Bool.not_eq_true', Bool.not_eq_true']
    exact ⟨hdot, hdash⟩

/-- C4 counterexample: under the fallback source the claimed cleaning fails —
AB3 survives although it contains a non-alphabetic character, so the
concrete input does not clean to exactly GOOG there. -/
theorem C4_counterexample :
    cleanFallback ["BRK.B", "ABC-W", "GOOG", "AB3"] = ["GOOG", "AB3"] ∧
    cleanFallback ["BRK.B", "ABC-W", "GOOG", "AB3"] ≠ ["GOOG"] ∧
    pyIsAlpha "AB3" = false :=
  ⟨rfl, by decide, rfl⟩

/-- C7: with at least 15 bars, the relative-volume factor contributes +20
iff the last session's volume over the mean of the preceding 14 sessions
strictly exceeds 1.5 (so a ratio of exactly 2 fires and exactly 1.5 does
not), and a zero mean yields the neutral zero contribution. -/
theorem C7_relative_volume (hist : List Bar) (h : 15 ≤ hist.length) :
    ((rvolFactor hist).1 = 20 ↔
      0 < rvolAvg hist ∧ 3/2 < todayVol hist / rvolAvg hist) ∧
    (rvolAvg hist = 0 → rvolFactor hist = (0, "Avg Vol is 0")) := by
  constructor
  · simp only [rvolFactor, if_pos h]
    split_ifs with h1 h2
    · simp only [gt_iff_lt] at h1 h2
      simp [h1, h2]
    · simp only [gt_iff_lt] at h2
      simp [h2]
    · simp only [gt_iff_lt, not_lt] at h1
      simp only [Prod.fst]
      constructor
      · intro hc
        cases hc
      · rintro ⟨hpos, _⟩
        exact absurd hpos (not_lt.mpr h1)
  · intro hz
    simp only [rvolFactor, if_pos h]
    rw [if_neg (by rw [hz]; exact lt_irrefl 0)]

/-- Concrete 15-session history: fourteen sessions of volume 100 and a
final session of volume 200, a relative-volume ratio of exactly 2. -/
def rvolDemoHist : List Bar :=
  [⟨0, 0, 0, 10, 100⟩, ⟨0, 0, 0, 10, 100⟩, ⟨0, 0, 0, 10, 100⟩, ⟨0, 0, 0, 10, 100⟩,
   ⟨0, 0, 0, 10, 100⟩, ⟨0, 0, 0, 10, 100⟩, ⟨0, 0, 0, 10, 100⟩, ⟨0, 0, 0, 10, 100⟩,
   ⟨0, 0, 0, 10, 100⟩, ⟨0, 0, 0, 10, 100⟩, ⟨0, 0, 0, 10, 100⟩, ⟨0, 0, 0, 10, 100⟩,
   ⟨0, 0, 0, 10, 100⟩, ⟨0, 0, 0, 10, 100⟩, ⟨0, 0, 0, 10, 200⟩]

/-- Witness for C7: a ratio of exactly 2 fires the +20 bonus. -/
theorem C7_relative_volume_witness : (rvolFactor rvolDemoHist).1 = 20 :=
  ((C7_relative_volume rvolDemoHist (by simp [rvolDemoHist])).1).mpr
    (by norm_num [rvolAvg, rvolWindow, todayVol, rvolDemoHist])

/-- C8: the sentiment factor sums the per-headline keyword scores of only
the first 3 headlines; per headline at most one +10 (some positive keyword
matches) and at most one -20 (some negative keyword matches), both may
fire on one headline — one containing both buy and crash nets -10 — and a
news-fetch failure yields 0. -/
theorem C8_sentiment (news : List String) (e : String) (title : String) :
    analyze_sentiment (Except.ok news) = ((news.take 3).map headlineScore).sum ∧
    headlineScore title =
      (if positive_keywords.any (fun k => strIn k (strLower title)) then 10 else 0) +
      (if negative_keywords.any (fun k => strIn k (strLower title)) then -20 else 0) ∧
    headlineScore "Buy now before the crash" = -10 ∧
    analyze_sentiment (Except.error e) = 0 := by
  refine ⟨?_, ?_, by decide, rfl⟩
  · cases news with
    | nil => rfl
    | cons a l => rfl
  · have conv1 : ∀ (ks : List String) (v : Int),
        (match ks.find? (fun k => strIn k (strLower title)) with
         | some _ => v
         | none => 0) =
        (if ks.any (fun k => strIn k (strLower title)) then v else 0) := by
      intro ks v
      cases hf : ks.find? (fun k => strIn k (strLower title)) with
      | none =>
        have ha : ks.any (fun k => strIn k (strLower title)) = false :=
          List.any_eq_false.mpr (by simpa using List.find?_eq_none.mp hf)
        rw [ha]
        rfl
      | some k =>
        have hpk := @List.find?_some String (fun k => strIn k (strLower title)) k ks hf
        have ha : ks.any (fun k => strIn k (strLower title)) = true :=
          List.any_eq_true.mpr ⟨k, List.mem_of_find?_eq_some hf, hpk⟩
        rw [ha]
        rfl
    simp only [headlineScore]
    rw [conv1, conv1]

/-- Characterization of one fast-filter decision: a survivor pair is
produced exactly when the ticker's data is present, its last bar has
non-NaN close and volume, and the price and dollar-volume gates pass. -/
theorem fastFilterOne_eq_some {data : String → Option (List FastBar)}
    {t' t : String} {c : ℚ} :
    fastFilterOne data t' = some (t, c) ↔
      t' = t ∧ ∃ df last_row, data t' = some df ∧ df.getLast? = some last_row ∧
        last_row.close = some c ∧ ∃ v, last_row.volume = some v ∧
          MIN_PRICE ≤ c ∧ MIN_DOLLAR_VOLUME ≤ c * v := by
  unfold fastFilterOne
  rcases hd : data t' with _ | df
  · simp [hd]
  rcases hl : df.getLast? with _ | ⟨oc, ov⟩
  · simp [hd, hl]
  rcases oc with _ | cv
  · simp [hd, hl]
  rcases ov with _ | vv
  · simp [hd, hl]
  simp only [hd, hl]
  by_cases hcond : cv ≥ MIN_PRICE ∧ cv * vv ≥ MIN_DOLLAR_VOLUME
  · rw [if_pos hcond]
    constructor
    · intro heq
      obtain ⟨rfl, rfl⟩ : t' = t ∧ cv = c := by
        have h2 := Option.some_inj.mp heq
        exact ⟨congrArg Prod.fst h2, congrArg Prod.snd h2⟩
      exact ⟨rfl, df, ⟨some cv, some vv⟩, rfl, hl, rfl, vv, rfl,
        hcond.1, hcond.2⟩
    · rintro ⟨rfl, df', lr', hdf', hl', hc', v, hv', _, _⟩
      obtain rfl : df = df' := Option.some_inj.mp hdf'
      obtain rfl : (⟨some cv, some vv⟩ : FastBar) = lr' :=
        Option.some_inj.mp (hl.symm.trans hl')
      obtain rfl : cv = c := Option.some_inj.mp hc'
      rfl
  · rw [if_neg hcond]
    constructor
    · intro heq
      cases heq
    · rintro ⟨rfl, df', lr', hdf', hl', hc', v, hv', h1, h2⟩
      obtain rfl : df = df' := Option.some_inj.mp hdf'
      obtain rfl : (⟨some cv, some vv⟩ : FastBar) = lr' :=
        Option.some_inj.mp (hl.symm.trans hl')
      obtain rfl : cv = c := Option.some_inj.mp hc'
      obtain rfl : vv = v := Option.some_inj.mp hv'
      exact absurd ⟨h1, h2⟩ hcond

/-- C9: a ticker of the batch becomes a survivor (with its last close
recorded) iff its per-ticker data is present, the last bar's close and
volume are both non-NaN, close ≥ 2.00 and close·volume ≥ 5,000,000;
tickers with a NaN close or volume are skipped. -/
theorem C9_fast_filter (batch : List String) (data : String → Option (List FastBar))
    (t : String) (c : ℚ) :
    (t, c) ∈ fastFilter batch data ↔
      t ∈ batch ∧ ∃ df last_row, data t = some df ∧ df.getLast? = some last_row ∧
        last_row.close = some c ∧ ∃ v, last_row.volume = some v ∧
          MIN_PRICE ≤ c ∧ MIN_DOLLAR_VOLUME ≤ c * v := by
  unfold fastFilter
  rw [List.mem_filterMap]
  constructor
  · rintro ⟨a, ha, heq⟩
    rw [fastFilterOne_eq_some] at heq
    obtain ⟨rfl, rest⟩ := heq
    exact ⟨ha, rest⟩
  · rintro ⟨ht, rest⟩
    exact ⟨t, ht, fastFilterOne_eq_some.mpr ⟨rfl, rest⟩⟩

/-- C1: a signal is emitted for a scored survivor iff its final score
strictly exceeds the 75 threshold (a score of exactly 75 emits nothing);
every emitted signal carries status OPEN and as entry price the last
close recorded by the fast filter for that ticker — the second conjunct
ties that price back to the fast-filter download, not to any price seen
during deep analysis. -/
theorem C1_signal_emitter (batch : List String) (data : String → Option (List FastBar))
    (scorer : String → ScoreResult) (s : Signal) :
    (s ∈ emit_signals (fastFilter batch data) scorer ↔
      ∃ t c, (t, c) ∈ fastFilter batch data ∧
        SCORE_THRESHOLD < (scorer t).final_score ∧
        s = ⟨t, c, (scorer t).final_score, (scorer t).details, "OPEN"⟩) ∧
    (∀ t c, (t, c) ∈ fastFilter batch data →
      ∃ df last_row, data t = some df ∧ df.getLast? = some last_row ∧
        last_row.close = some c) := by
  constructor
  · unfold emit_signals
    rw [List.mem_filterMap]
    constructor
    · rintro ⟨⟨t, c⟩, htc, heq⟩
      dsimp only at heq
      by_cases hgt : (scorer t).final_score > SCORE_THRESHOLD
      · rw [if_pos hgt] at heq
        exact ⟨t, c, htc, hgt, (Option.some_inj.mp heq).symm⟩
      · rw [if_neg hgt] at heq
        cases heq
    · rintro ⟨t, c, htc, hgt, rfl⟩
      refine ⟨(t, c), htc, ?_⟩
      dsimp only
      rw [if_pos hgt]
      rfl
  · intro t c htc
    unfold fastFilter at htc
    rw [List.mem_filterMap] at htc
    obtain ⟨a, ha, heq⟩ := htc
    rw [fastFilterOne_eq_some] at heq
    obtain ⟨rfl, df, lr, h1, h2, h3, _⟩ := heq
    exact ⟨df, lr, h1, h2, h3⟩

/-- Witness for C1 at a one-ticker batch whose survivor scores 80. -/
theorem C1_signal_emitter_witness :
    ∃ df last_row,
      (fun t : String =>
        if t = "AAA" then some [FastBar.mk (some 10) (some 1000000)] else none) "AAA" =
          some df ∧
      df.getLast? = some last_row ∧ last_row.close = some 10 :=
  (C1_signal_emitter ["AAA"]
    (fun t => if t = "AAA" then some [FastBar.mk (some 10) (some 1000000)] else none)
    (fun t => ⟨t, 80, "d"⟩) ⟨"AAA", 10, 80, "d", "OPEN"⟩).2 "AAA" 10
    (by norm_num [fastFilter, fastFilterOne, MIN_PRICE, MIN_DOLLAR_VOLUME])

/-- The analyst block appends at most two reason entries. -/
theorem analystFactor_length_le_two (c : ℚ) (i : Except String AnalystInfo) :
    (analystFactor c i).2.length ≤ 2 := by
  rcases i with e | info
  · simp [analystFactor]
  · cases htp : info.targetMeanPrice with
    | none =>
      simp only [analystFactor, htp]
      split_ifs <;> simp
    | some tp =>
      simp only [analystFactor, htp]
      split_ifs <;> simp

/-- C3 (amended): past the hard filter, the reasons trail is the
semicolon-join of exactly one entry for each of the five factors
moving-average stack, relative volume, 52-week-high proximity, ATR
stability and news sentiment, in that fixed order (skipped factors
recorded by a not-enough-data entry), followed by between zero and two
analyst-consensus entries. -/
theorem C3_reasons_trail (t : String) (p : Provider) (hist : List Bar)
    (hh : p.hist = Except.ok hist) (hne : hist ≠ []) (hp : ¬ lastClose hist < 2) :
    (analyze_stock t p).details =
      String.intercalate "; "
        ([(maFactor hist).2, (rvolFactor hist).2,
          (highFactor (lastClose hist) hist).2, (atrFactor (lastClose hist) hist).2,
          sentimentEntry (analyze_sentiment p.news)] ++
         (analystFactor (lastClose hist) p.info).2) ∧
    (analystFactor (lastClose hist) p.info).2.length ≤ 2 ∧
    (hist.length < 200 → (maFactor hist).2 = "Not enough data for MA Stack") ∧
    (hist.length < 15 →
      (rvolFactor hist).2 = "Not enough data for RVOL" ∧
      (atrFactor (lastClose hist) hist).2 = "Not enough data for ATR") := by
  obtain ⟨ph, pn, pi⟩ := p
  simp only at hh
  subst hh
  refine ⟨?_, analystFactor_length_le_two _ _, ?_, ?_⟩
  · simp [analyze_stock, hne, hp]
  · intro hlen
    have hnot : ¬ (hist.length ≥ 200) := by omega
    simp [maFactor, hnot]
  · intro hlen
    have hnot : ¬ (hist.length ≥ 15) := by omega
    constructor
    · simp [rvolFactor, hnot]
    · simp [atrFactor, hnot]

/-- Witness for C3 (amended) at a concrete one-bar history. -/
theorem C3_reasons_trail_witness :
    (analystFactor (lastClose [⟨10, 10, 10, 10, 1000⟩]) (Except.ok ⟨none, "none"⟩)).2.length ≤ 2 :=
  (C3_reasons_trail "TST"
    ⟨Except.ok [⟨10, 10, 10, 10, 1000⟩], Except.ok [], Except.ok ⟨none, "none"⟩⟩
    [⟨10, 10, 10, 10, 1000⟩] rfl (by simp) (by norm_num [lastClose])).2.1

/-- C3 counterexample: for a hard-filter-passing ticker whose analyst
lookup succeeds but is neutral, the reasons trail has exactly five
entries — the analyst factor contributes no entry at all — refuting
"exactly one textual entry per evaluated factor" for all six factors. -/
theorem C3_counterexample :
    (analyze_stock "TST"
      ⟨Except.ok [⟨10, 10, 10, 10, 1000⟩], Except.ok [], Except.ok ⟨none, "none"⟩⟩).details =
      String.intercalate "; "
        ["Not enough data for MA Stack", "Not enough data for RVOL",
         "Price within 5% of 52w High (10.00): +20", "Not enough data for ATR",
         "Neutral/No News Sentiment"] ∧
    (analystFactor (lastClose [⟨10, 10, 10, 10, 1000⟩]) (Except.ok ⟨none, "none"⟩)).2 = [] := by
  constructor
  · have hhigh : highFactor (10 : ℚ) [⟨10, 10, 10, 10, 1000⟩] =
        (20, "Price within 5% of 52w High (10.00): +20") := by
      simp only [highFactor]
      rw [if_pos (by norm_num [maxHigh])]
      rw [show maxHigh [⟨10, 10, 10, 10, 1000⟩] = ((10 : ℕ) : ℚ) from by
        norm_num [maxHigh]]
      rw [fmt2_natCast]
      rfl
    have hlast : lastClose [(⟨10, 10, 10, 10, 1000⟩ : Bar)] = (10 : ℚ) := by
      norm_num [lastClose]
    simp only [analyze_stock]
    rw [if_neg (by simp : ¬ ([(⟨10, 10, 10, 10, 1000⟩ : Bar)].isEmpty = true))]
    rw [if_neg (by rw [hlast]; norm_num)]
    rw [hlast, hhigh]
    rfl
  · rfl

/-- The moving-average factor contributes 0 or its fixed +30 bonus. -/
theorem maFactor_fst (hist : List Bar) : (maFactor hist).1 = 0 ∨ (maFactor hist).1 = 30 := by
  simp only [maFactor]
  split_ifs <;> simp

/-- The relative-volume factor contributes 0 or its fixed +20 bonus. -/
theorem rvolFactor_fst (hist : List Bar) :
    (rvolFactor hist).1 = 0 ∨ (rvolFactor hist).1 = 20 := by
  simp only [rvolFactor]
  split_ifs <;> simp

/-- The 52-week-high factor contributes 0 or its fixed +20 bonus. -/
theorem highFactor_fst (c : ℚ) (hist : List Bar) :
    (highFactor c hist).1 = 0 ∨ (highFactor c hist).1 = 20 := by
  simp only [highFactor]
  split_ifs <;> simp

/-- The ATR factor contributes 0 or its fixed +10 bonus. -/
theorem atrFactor_fst (c : ℚ) (hist : List Bar) :
    (atrFactor c hist).1 = 0 ∨ (atrFactor c hist).1 = 10 := by
  simp only [atrFactor]
  split_ifs <;> simp

/-- One headline contributes between -20 and +10. -/
theorem headlineScore_bounds (t : String) :
    -20 ≤ headlineScore t ∧ headlineScore t ≤ 10 := by
  rcases hp : positive_keywords.find? (fun k => strIn k (strLower t)) with _ | k1 <;>
    rcases hn : negative_keywords.find? (fun k => strIn k (strLower t)) with _ | k2 <;>
      simp [headlineScore, hp, hn]

/-- The sentiment factor lies between -60 and +30. -/
theorem analyze_sentiment_bounds (res : Except String (List String)) :
    -60 ≤ analyze_sentiment res ∧ analyze_sentiment res ≤ 30 := by
  rcases res with e | news
  · simp [analyze_sentiment]
  · rcases news with _ | ⟨a, _ | ⟨b, _ | ⟨c, rest⟩⟩⟩
    · simp [analyze_sentiment]
    · have ha := headlineScore_bounds a
      simp only [analyze_sentiment, List.isEmpty_cons, List.take, List.map, List.sum_cons,
        List.sum_nil, Bool.false_eq_true, if_false]
      omega
    · have ha := headlineScore_bounds a
      have hb := headlineScore_bounds b
      simp only [analyze_sentiment, List.isEmpty_cons, List.take, List.map, List.sum_cons,
        List.sum_nil, Bool.false_eq_true, if_false]
      omega
    · have ha := headlineScore_bounds a
      have hb := headlineScore_bounds b
      have hc := headlineScore_bounds c
      simp only [analyze_sentiment, List.isEmpty_cons, List.take, List.map, List.sum_cons,
        List.sum_nil, Bool.false_eq_true, if_false]
      omega

/-- The analyst factor lies between -10 and +15. -/
theorem analystFactor_bounds (c : ℚ) (i : Except String AnalystInfo) :
    -10 ≤ (analystFactor c i).1 ∧ (analystFactor c i).1 ≤ 15 := by
  rcases i with e | info
  · simp [analystFactor]
  · cases htp : info.targetMeanPrice with
    | none =>
      simp only [analystFactor, htp]
      split_ifs <;> simp
    | some tp =>
      simp only [analystFactor, htp]
      split_ifs <;> simp

/-- C10: every final score lies between -70 and 125 inclusive; each
technical factor contributes 0 or its fixed bonus (+30, +20, +20, +10),
sentiment lies in [-60, 30], the analyst factor in [-10, 15], and the
whole-analysis error path returns 0. -/
theorem C10_score_bounds :
    (∀ (t : String) (p : Provider),
      -70 ≤ (analyze_stock t p).final_score ∧ (analyze_stock t p).final_score ≤ 125) ∧
    (∀ hist, (maFactor hist).1 = 0 ∨ (maFactor hist).1 = 30) ∧
    (∀ hist, (rvolFactor hist).1 = 0 ∨ (rvolFactor hist).1 = 20) ∧
    (∀ (c : ℚ) hist, (highFactor c hist).1 = 0 ∨ (highFactor c hist).1 = 20) ∧
    (∀ (c : ℚ) hist, (atrFactor c hist).1 = 0 ∨ (atrFactor c hist).1 = 10) ∧
    (∀ res, -60 ≤ analyze_sentiment res ∧ analyze_sentiment res ≤ 30) ∧
    (∀ (c : ℚ) i, -10 ≤ (analystFactor c i).1 ∧ (analystFactor c i).1 ≤ 15) ∧
    (∀ (t : String) (p : Provider) (e : String),
      p.hist = Except.error e → (analyze_stock t p).final_score = 0) := by
  refine ⟨?_, maFactor_fst, rvolFactor_fst, highFactor_fst, atrFactor_fst,
    analyze_sentiment_bounds, analystFactor_bounds, ?_⟩
  · intro t p
    obtain ⟨ph, pn, pi⟩ := p
    rcases ph with e | hist
    · simp [analyze_stock]
    · by_cases hemp : hist.isEmpty
      · simp [analyze_stock, hemp]
      · by_cases hlt : lastClose hist < 2
        · simp [analyze_stock, hemp, hlt]
        · have hma := maFactor_fst hist
          have hrv := rvolFactor_fst hist
          have hhi := highFactor_fst (lastClose hist) hist
          have hat := atrFactor_fst (lastClose hist) hist
          obtain ⟨hse1, hse2⟩ := analyze_sentiment_bounds pn
          obtain ⟨han1, han2⟩ := analystFactor_bounds (lastClose hist) pi
          simp only [analyze_stock, hemp, hlt, Bool.false_eq_true, if_false]
          constructor <;> rcases hma with h1 | h1 <;> rcases hrv with h2 | h2 <;>
            rcases hhi with h3 | h3 <;> rcases hat with h4 | h4 <;> omega
  · intro t p e hh
    obtain ⟨ph, pn, pi⟩ := p
    simp only at hh
    subst hh
    rfl

/-- Witness for C10's error conjunct at a concrete raising provider. -/
theorem C10_score_bounds_witness :
    (analyze_stock "X" ⟨Except.error "boom", Except.ok [], Except.ok ⟨none, ""⟩⟩).final_score
      = 0 :=
  C10_score_bounds.2.2.2.2.2.2.2 "X"
    ⟨Except.error "boom", Except.ok [], Except.ok ⟨none, ""⟩⟩ "boom" rfl
